import Mathlib

/-
Verification development for the lighthouse block-export pipeline
(`export.py`).  The external collaborators (the LevelDB store engine, the
SSZ object decoder, the CSV writer's low-level escaping, the CLI parser)
are modelled as injected capabilities or at the record level:

* store values are an abstract type `α` together with an injected decoder
  `α → Option SignedBeaconBlock` (resp. `Option BeaconState`); `none`
  models `decode_bytes` raising an exception;
* root digests (`spec.Root`) are modelled by their hex display string, so
  Python's `root.hex()` is the identity on the model;
* a CSV file is modelled as its name, header row and typed data rows; the
  rendered file contents are the header row followed by one rendered row
  per record, in order (`csv.writer` semantics, escaping elided);
* the store cursor is modelled by the list of key/value pairs it yields.

Everything else follows `export.py` line by line.
-/

namespace BlockExport

/-- `spec.Root`, modelled by its hex display string (no `0x` prefix inside
the store key; `.hex()` is the identity on this model). -/
abbrev Root := String

/-- `spec.Checkpoint`: an `epoch` and a `root`. -/
structure Checkpoint where
  epoch : Nat
  root : Root
deriving DecidableEq

/-- `spec.AttestationData` (fields used by `export.py`). -/
structure AttestationData where
  slot : Nat
  index : Nat
  beacon_block_root : Root
  source : Checkpoint
  target : Checkpoint
deriving DecidableEq

/-- `spec.Attestation` (fields used by `export.py`); the aggregation
bitlist is an ordered list of bits. -/
structure Attestation where
  aggregation_bits : List Bool
  data : AttestationData
deriving DecidableEq

/-- `spec.DepositData` (fields used by `export.py`). -/
structure DepositData where
  pubkey : String
  amount : Nat
deriving DecidableEq

/-- `spec.Deposit` (fields used by `export.py`). -/
structure Deposit where
  data : DepositData
deriving DecidableEq

/-- `spec.VoluntaryExit` (fields used by `export.py`). -/
structure VoluntaryExit where
  epoch : Nat
  validator_index : Nat
deriving DecidableEq

/-- `spec.SignedVoluntaryExit` (fields used by `export.py`). -/
structure SignedVoluntaryExit where
  message : VoluntaryExit
deriving DecidableEq

/-- `spec.BeaconBlockBody` (fields used by `export.py`); the three
container lists are modelled as Lean lists (`readonly_iter()` yields
their elements in order). -/
structure BeaconBlockBody where
  attestations : List Attestation
  deposits : List Deposit
  voluntary_exits : List SignedVoluntaryExit
deriving DecidableEq

/-- `spec.BeaconBlock` (fields used by `export.py`). -/
structure BeaconBlock where
  parent_root : Root
  state_root : Root
  slot : Nat
  proposer_index : Nat
  body : BeaconBlockBody
deriving DecidableEq

/-- `spec.SignedBeaconBlock` (fields used by `export.py`). -/
structure SignedBeaconBlock where
  message : BeaconBlock
deriving DecidableEq

/-- `spec.BeaconState` (fields used by `export.py`). -/
structure BeaconState where
  slot : Nat
deriving DecidableEq

/-- `BLOCK_COLS` from `export.py`. -/
def BLOCK_COLS : List String :=
  ["block_root", "parent_root", "state_root", "slot", "proposer_index"]

/-- `ATTESTATION_COLS` from `export.py`. -/
def ATTESTATION_COLS : List String :=
  ["slot", "att_slot", "committee_index", "beacon_block_root", "attesting_indices",
   "source_epoch", "source_block_root", "target_epoch", "target_block_root"]

/-- `DEPOSIT_COLS` from `export.py`. -/
def DEPOSIT_COLS : List String :=
  ["slot", "pubkey", "amount"]

/-- `EXIT_COLS` from `export.py`. -/
def EXIT_COLS : List String :=
  ["slot", "exit_epoch", "validator_index"]

/-- `STATE_COLS` from `export.py`. -/
def STATE_COLS : List String :=
  ["state_root", "slot"]

/-- The block record tuple produced by `extract_block`. -/
structure BlockRecord where
  block_root : String
  parent_root : Root
  state_root : Root
  slot : Nat
  proposer_index : Nat
deriving DecidableEq

/-- The attestation record tuple produced by `extract_attestations`. -/
structure AttestationRecord where
  slot : Nat
  att_slot : Nat
  committee_index : Nat
  beacon_block_root : Root
  attesting_indices : String
  source_epoch : Nat
  source_block_root : Root
  target_epoch : Nat
  target_block_root : Root
deriving DecidableEq

/-- The deposit record tuple produced by `extract_deposits`. -/
structure DepositRecord where
  slot : Nat
  pubkey : String
  amount : Nat
deriving DecidableEq

/-- The exit record tuple produced by `extract_exits`. -/
structure ExitRecord where
  slot : Nat
  exit_epoch : Nat
  validator_index : Nat
deriving DecidableEq

/-- The state record tuple produced by `extract_state`. -/
structure StateRecord where
  state_root : String
  slot : Nat
deriving DecidableEq

/-- `extract_block(sbb, block_root)` from `export.py`. -/
def extract_block (sbb : SignedBeaconBlock) (block_root : Root) : BlockRecord :=
  { block_root := "0x" ++ block_root,
    parent_root := sbb.message.parent_root,
    state_root := sbb.message.state_root,
    slot := sbb.message.slot,
    proposer_index := sbb.message.proposer_index }

/-- `bitlist_to_str(bitlist)` from `export.py`:
`''.join('1' if b else '0' for b in bitlist)`. -/
def bitlist_to_str (bitlist : List Bool) : String :=
  String.join (bitlist.map (fun b => if b then "1" else "0"))

/-- `extract_attestations(sbb)` from `export.py`. -/
def extract_attestations (sbb : SignedBeaconBlock) : List AttestationRecord :=
  sbb.message.body.attestations.map (fun a =>
    { slot := sbb.message.slot,
      att_slot := a.data.slot,
      committee_index := a.data.index,
      beacon_block_root := a.data.beacon_block_root,
      attesting_indices := bitlist_to_str a.aggregation_bits,
      source_epoch := a.data.source.epoch,
      source_block_root := a.data.source.root,
      target_epoch := a.data.target.epoch,
      target_block_root := a.data.target.root })

/-- `extract_deposits(sbb)` from `export.py`. -/
def extract_deposits (sbb : SignedBeaconBlock) : List DepositRecord :=
  sbb.message.body.deposits.map (fun d =>
    { slot := sbb.message.slot,
      pubkey := d.data.pubkey,
      amount := d.data.amount })

/-- `extract_exits(sbb)` from `export.py`. -/
def extract_exits (sbb : SignedBeaconBlock) : List ExitRecord :=
  sbb.message.body.voluntary_exits.map (fun e =>
    { slot := sbb.message.slot,
      exit_epoch := e.message.epoch,
      validator_index := e.message.validator_index })

/-- `extract_state(bs, state_root)` from `export.py`. -/
def extract_state (bs : BeaconState) (state_root : Root) : StateRecord :=
  { state_root := "0x" ++ state_root, slot := bs.slot }

/-- The `items` dictionary of the block pipeline:
`{"blocks": [], "attestations": [], "deposits": [], "exits": []}`. -/
structure BlockItems where
  blocks : List BlockRecord
  attestations : List AttestationRecord
  deposits : List DepositRecord
  exits : List ExitRecord
deriving DecidableEq

/-- The empty block-pipeline `items` dictionary. -/
def emptyBlockItems : BlockItems :=
  { blocks := [], attestations := [], deposits := [], exits := [] }

/-- `any([len(vs) > 0 for vs in items.values()])` for the block pipeline. -/
def BlockItems.any_nonempty (it : BlockItems) : Bool :=
  !it.blocks.isEmpty || !it.attestations.isEmpty || !it.deposits.isEmpty || !it.exits.isEmpty

/-- The `items` dictionary of the state pipeline: `{"states": []}`. -/
structure StateItems where
  states : List StateRecord
deriving DecidableEq

/-- The empty state-pipeline `items` dictionary. -/
def emptyStateItems : StateItems :=
  { states := [] }

/-- `any([len(vs) > 0 for vs in items.values()])` for the state pipeline. -/
def StateItems.any_nonempty (it : StateItems) : Bool :=
  !it.states.isEmpty

/-- The comparison `slot >= end_slot` where the default `end_slot` is
`math.inf` (modelled as `none`): against infinity it is always false. -/
def past_end_slot (slot : Nat) (end_slot : Option Nat) : Bool :=
  match end_slot with
  | none => false
  | some e => decide (e ≤ slot)

/-- `parse_block_data(block_key, block_bytes, items, start_slot, end_slot)`
from `export.py`.  `decode_block` is the injected
`spec.SignedBeaconBlock.decode_bytes`; `none` models the decoder raising,
which `parse_block_data` does not catch, so the error propagates
(`Except.error`).  Python's defaults are `start_slot=0`,
`end_slot=math.inf` (here `none`). -/
def parse_block_data {α : Type} (decode_block : α → Option SignedBeaconBlock)
    (block_key : Root) (block_bytes : α) (items0 : Option BlockItems)
    (start_slot : Nat) (end_slot : Option Nat) : Except Unit (BlockItems × Nat) :=
  let items := items0.getD emptyBlockItems
  match decode_block block_bytes with
  | none => Except.error ()
  | some signed_beacon_block =>
    let block_slot := signed_beacon_block.message.slot
    if decide (block_slot < start_slot) || past_end_slot block_slot end_slot then
      Except.ok (items, block_slot)
    else
      Except.ok
        ({ blocks := items.blocks ++ [extract_block signed_beacon_block block_key],
           attestations := items.attestations ++ extract_attestations signed_beacon_block,
           deposits := items.deposits ++ extract_deposits signed_beacon_block,
           exits := items.exits ++ extract_exits signed_beacon_block },
         block_slot)

/-- `parse_state_data(state_key, state_bytes, items, start_slot, end_slot)`
from `export.py`.  Unlike the block variant, the whole body sits in a
`try`/`except` that logs and returns `(items, 0)` on a decode failure, so
the function is total.  Python's defaults are `start_slot=0`,
`end_slot=math.inf` (here `none`). -/
def parse_state_data {σ : Type} (decode_state : σ → Option BeaconState)
    (state_key : Root) (state_bytes : σ) (items0 : Option StateItems)
    (start_slot : Nat) (end_slot : Option Nat) : StateItems × Nat :=
  let items := items0.getD emptyStateItems
  match decode_state state_bytes with
  | none => (items, 0)
  | some beacon_state =>
    let state_slot := beacon_state.slot
    if decide (state_slot < start_slot) || past_end_slot state_slot end_slot then
      (items, state_slot)
    else
      ({ states := items.states ++ [extract_state beacon_state state_key] }, state_slot)

/-- One CSV artifact: its path, its fixed header row and its typed data
rows (written in order after the header). -/
structure CsvFile (ρ : Type) where
  name : String
  header : List String
  rows : List ρ
deriving DecidableEq

/-- The rendered contents of a CSV artifact: the header row followed by
one rendered row per record, in order. -/
def CsvFile.lines {ρ : Type} (toRow : ρ → List String) (f : CsvFile ρ) : List (List String) :=
  f.header :: f.rows.map toRow

/-- `csv.writer` rendering of a block record tuple. -/
def BlockRecord.toRow (r : BlockRecord) : List String :=
  [r.block_root, r.parent_root, r.state_root, toString r.slot, toString r.proposer_index]

/-- `csv.writer` rendering of an attestation record tuple. -/
def AttestationRecord.toRow (r : AttestationRecord) : List String :=
  [toString r.slot, toString r.att_slot, toString r.committee_index, r.beacon_block_root,
   r.attesting_indices, toString r.source_epoch, r.source_block_root,
   toString r.target_epoch, r.target_block_root]

/-- `csv.writer` rendering of a deposit record tuple. -/
def DepositRecord.toRow (r : DepositRecord) : List String :=
  [toString r.slot, r.pubkey, toString r.amount]

/-- `csv.writer` rendering of an exit record tuple. -/
def ExitRecord.toRow (r : ExitRecord) : List String :=
  [toString r.slot, toString r.exit_epoch, toString r.validator_index]

/-- `csv.writer` rendering of a state record tuple. -/
def StateRecord.toRow (r : StateRecord) : List String :=
  [r.state_root, toString r.slot]

/-- The four artifacts one `write_block_data` call opens (mode `w`,
truncating) and fills. -/
structure BlockWrite where
  blockFile : CsvFile BlockRecord
  attFile : CsvFile AttestationRecord
  depositFile : CsvFile DepositRecord
  exitFile : CsvFile ExitRecord
deriving DecidableEq

/-- `write_block_data(out_dir, count, step_size, items)` from `export.py`:
each of the four files is named `<kind>_<count // step_size>.csv` and
holds the kind's header row followed by the buffered records in order. -/
def write_block_data (out_dir : String) (count : Nat) (step_size : Nat)
    (items : BlockItems) : BlockWrite :=
  { blockFile :=
      { name := out_dir ++ "/blocks_" ++ toString (count / step_size) ++ ".csv",
        header := BLOCK_COLS, rows := items.blocks },
    attFile :=
      { name := out_dir ++ "/attestations_" ++ toString (count / step_size) ++ ".csv",
        header := ATTESTATION_COLS, rows := items.attestations },
    depositFile :=
      { name := out_dir ++ "/deposits_" ++ toString (count / step_size) ++ ".csv",
        header := DEPOSIT_COLS, rows := items.deposits },
    exitFile :=
      { name := out_dir ++ "/exits_" ++ toString (count / step_size) ++ ".csv",
        header := EXIT_COLS, rows := items.exits } }

/-- `write_state_data(out_dir, count, step_size, items)` from `export.py`. -/
def write_state_data (out_dir : String) (count : Nat) (step_size : Nat)
    (items : StateItems) : CsvFile StateRecord :=
  { name := out_dir ++ "/states_" ++ toString (count / step_size) ++ ".csv",
    header := STATE_COLS, rows := items.states }

/-- The rendered files (name, contents) produced by one `write_block_data`
call. -/
def BlockWrite.files (w : BlockWrite) : List (String × List (List String)) :=
  [(w.blockFile.name, w.blockFile.lines BlockRecord.toRow),
   (w.attFile.name, w.attFile.lines AttestationRecord.toRow),
   (w.depositFile.name, w.depositFile.lines DepositRecord.toRow),
   (w.exitFile.name, w.exitFile.lines ExitRecord.toRow)]

/-- Resolve a sequence of file writes (in write order) to the final
on-disk contents of `name`: every write opens with mode `w` and truncates,
so the last write to a name wins. -/
def lastContent (name : String) (files : List (String × List (List String))) :
    Option (List (List String)) :=
  ((files.filter (fun f => f.1 == name)).getLast?).map (fun f => f.2)

/-- The mutable state of `export_data`'s main loop: the current `items`
buffer (`none` after a flush, as in the Python), the `count` and
`db_count` counters, the running `highest_slot`, and the write calls
performed so far, in order. -/
structure LoopSt (ι ω : Type) where
  items : Option ι
  count : Nat
  db_count : Nat
  highest_slot : Nat
  writes : List ω
deriving DecidableEq

/-- The `for key, value in sub_db:` loop of `export_data`.  Per item:
`db_count += 1`; `items, item_slot = parse_fun(key, value, items)` (an
uncaught parse exception aborts the loop, modelled by `Except.error`
carrying the state at the abort); `highest_slot` is raised to `item_slot`
if larger; `count += 1`; and when `count % step_size == 0` the batch is
written (`write_fun(count, items)`, with `out_dir`/`step_size` already
bound) and the buffer reset to `none`.  The two progress `print`s have no
effect on the state and are elided. -/
def export_loop {α ι ω : Type} (parse_fun : Root → α → Option ι → Except Unit (ι × Nat))
    (write_fun : Nat → ι → ω) (step_size : Nat) :
    List (Root × α) → LoopSt ι ω → Except (LoopSt ι ω) (LoopSt ι ω)
  | [], st => Except.ok st
  | (key, value) :: rest, st =>
    match parse_fun key value st.items with
    | Except.error _ => Except.error { st with db_count := st.db_count + 1 }
    | Except.ok (items, item_slot) =>
      if (st.count + 1) % step_size = 0 then
        export_loop parse_fun write_fun step_size rest
          { items := none, count := st.count + 1, db_count := st.db_count + 1,
            highest_slot := if item_slot > st.highest_slot then item_slot else st.highest_slot,
            writes := st.writes ++ [write_fun (st.count + 1) items] }
      else
        export_loop parse_fun write_fun step_size rest
          { items := some items, count := st.count + 1, db_count := st.db_count + 1,
            highest_slot := if item_slot > st.highest_slot then item_slot else st.highest_slot,
            writes := st.writes }

/-- One database session event: the `plyvel.DB` open, a `write_fun` call,
or the `db.close()` in the `finally` block. -/
inductive TraceEv (ω : Type) where
  | openDb : TraceEv ω
  | writeEv : ω → TraceEv ω
  | closeDb : TraceEv ω

/-- Whether a trace event is the `db.close()` call. -/
def TraceEv.isClose {ω : Type} : TraceEv ω → Bool
  | TraceEv.closeDb => true
  | _ => false

/-- The outcome of one `export_data` run: the write calls in order,
whether an uncaught parse exception aborted the loop, the final counters,
and the session trace (open, writes, close). -/
structure ExportResult (ι ω : Type) where
  writes : List ω
  aborted : Bool
  count : Nat
  db_count : Nat
  highest_slot : Nat
  trace : List (TraceEv ω)

/-- `export_data(lighthouse_dir, out_dir, item_prefix, parse_fun,
write_fun, start_slot, end_slot, step_size)` from `export.py`.  The store
open and prefix scoping are external; `entries` is the key/value sequence
the prefixed cursor yields.  Faithful to the source: the loop calls
`parse_fun(key, value, items)` with only three arguments, so `start_slot`
and `end_slot` are accepted here but never forwarded to the parser (they
are unused, as in the Python).  After the loop, if the buffer is not
`None` and some kind's list is non-empty, one final `write_fun` runs with
the final `count`.  The `finally: db.close()` runs on both exit paths. -/
def export_data {α ι ω : Type} (parse_fun : Root → α → Option ι → Except Unit (ι × Nat))
    (write_fun : String → Nat → Nat → ι → ω) (any_nonempty : ι → Bool)
    (out_dir : String) (entries : List (Root × α))
    (start_slot : Nat) (end_slot : Option Nat) (step_size : Nat) :
    ExportResult ι ω :=
  match export_loop parse_fun (fun count items => write_fun out_dir count step_size items)
      step_size entries
      { items := none, count := 0, db_count := 0, highest_slot := 1, writes := [] } with
  | Except.error st =>
      { writes := st.writes, aborted := true, count := st.count, db_count := st.db_count,
        highest_slot := st.highest_slot,
        trace := TraceEv.openDb :: (st.writes.map TraceEv.writeEv) ++ [TraceEv.closeDb] }
  | Except.ok st =>
      let writes :=
        match st.items with
        | some items =>
            if any_nonempty items then
              st.writes ++ [write_fun out_dir st.count step_size items]
            else st.writes
        | none => st.writes
      { writes := writes, aborted := false, count := st.count, db_count := st.db_count,
        highest_slot := st.highest_slot,
        trace := TraceEv.openDb :: (writes.map TraceEv.writeEv) ++ [TraceEv.closeDb] }

/-- The block-pipeline run
`export_data(..., BLOCK_PREFIX, parse_block_data, write_block_data, ...)`:
the parser is instantiated with Python's own default bounds
(`start_slot=0`, `end_slot=math.inf`) because the loop body passes only
`(key, value, items)`. -/
def export_block_data {α : Type} (decode_block : α → Option SignedBeaconBlock)
    (out_dir : String) (entries : List (Root × α))
    (start_slot : Nat) (end_slot : Option Nat) (step_size : Nat) :
    ExportResult BlockItems BlockWrite :=
  export_data (fun k v i => parse_block_data decode_block k v i 0 none)
    write_block_data BlockItems.any_nonempty out_dir entries start_slot end_slot step_size

/-- The state-pipeline run
`export_data(..., STATE_PREFIX, parse_state_data, write_state_data, ...)`
(present in the source, commented out at the call site): the parser never
raises, and is likewise instantiated with Python's default bounds. -/
def export_state_data {σ : Type} (decode_state : σ → Option BeaconState)
    (out_dir : String) (entries : List (Root × σ))
    (start_slot : Nat) (end_slot : Option Nat) (step_size : Nat) :
    ExportResult StateItems (CsvFile StateRecord) :=
  export_data (fun k v i => Except.ok (parse_state_data decode_state k v i 0 none))
    write_state_data StateItems.any_nonempty out_dir entries start_slot end_slot step_size

/-- The rendered files written by a block-pipeline run, in write order. -/
def blockRunFiles (res : ExportResult BlockItems BlockWrite) :
    List (String × List (List String)) :=
  (res.writes.map BlockWrite.files).flatten

/-- The write calls recorded by a finished or aborted loop. -/
def loopWrites {ι ω : Type} : Except (LoopSt ι ω) (LoopSt ι ω) → List ω
  | Except.ok st => st.writes
  | Except.error st => st.writes

/-! Concrete test fixtures.  The decoder capability is instantiated with
the identity on `Option`: a store value is the decoded object itself, or
`none` for bytes on which `decode_bytes` raises. -/

/-- Test decoder for the block namespace. -/
def decodeB : Option SignedBeaconBlock → Option SignedBeaconBlock := fun x => x

/-- Test decoder for the state namespace. -/
def decodeS : Option BeaconState → Option BeaconState := fun x => x

/-- A block body with zero attestations, deposits and voluntary exits. -/
def emptyBody : BeaconBlockBody :=
  { attestations := [], deposits := [], voluntary_exits := [] }

/-- A minimal signed block at a given slot, with an empty body. -/
def mkBlock (slot : Nat) : SignedBeaconBlock :=
  { message := { parent_root := "p", state_root := "s", slot := slot,
                 proposer_index := 0, body := emptyBody } }

/-- A minimal state object at a given slot. -/
def mkState (slot : Nat) : BeaconState := { slot := slot }

/-- The block record extracted from the uniform test entry. -/
def blockRec : BlockRecord := extract_block (mkBlock 0) "k"

/-- The block-pipeline buffer holding `n` copies of the uniform test
record and nothing else. -/
def bufOf (n : Nat) : BlockItems :=
  { blocks := List.replicate n blockRec, attestations := [], deposits := [], exits := [] }

/-- The uniform in-range store entry used for batch-counting runs. -/
def uEntry : Root × Option SignedBeaconBlock := ("k", some (mkBlock 0))

/-- Three distinct in-range block entries (slots 1, 2, 3). -/
def entries3 : List (Root × Option SignedBeaconBlock) :=
  [("a", some (mkBlock 1)), ("b", some (mkBlock 2)), ("c", some (mkBlock 3))]

/-! ## Supporting lemmas -/

/-- Folding string concatenation collects the character data of every
string in the list, in order. -/
theorem foldl_append_data (l : List String) (init : String) :
    (l.foldl (fun r s => r ++ s) init).data = init.data ++ (l.map String.data).flatten := by
  induction l generalizing init with
  | nil => simp
  | cons hd tl ih =>
    simp only [List.foldl_cons, List.map_cons, List.flatten_cons]
    rw [ih (init ++ hd), String.data_append, List.append_assoc]

/-- The characters of the derived bit-string are exactly the bits of the
vector, rendered as `'1'`/`'0'`, in order. -/
theorem bitlist_to_str_data (l : List Bool) :
    (bitlist_to_str l).data = l.map (fun b => if b then '1' else '0') := by
  unfold bitlist_to_str String.join
  rw [foldl_append_data]
  induction l with
  | nil => rfl
  | cons b t ih =>
    cases b <;> simpa using ih

/-- When the parser never raises, the main loop always finishes normally. -/
theorem export_loop_ok_of_total {α ι ω : Type}
    (parse_fun : Root → α → Option ι → Except Unit (ι × Nat))
    (write_fun : Nat → ι → ω) (step_size : Nat)
    (htotal : ∀ k v i, ∃ r, parse_fun k v i = Except.ok r) :
    ∀ (entries : List (Root × α)) (st : LoopSt ι ω),
      ∃ st', export_loop parse_fun write_fun step_size entries st = Except.ok st' := by
  intro entries
  induction entries with
  | nil => exact fun st => ⟨st, rfl⟩
  | cons e rest ih =>
    intro st
    obtain ⟨k, v⟩ := e
    obtain ⟨⟨it, sl⟩, hp⟩ := htotal k v st.items
    simp only [export_loop, hp]
    split
    · exact ih _
    · exact ih _

/-- The loop advances `count` and `db_count` once per consumed entry when
it finishes normally. -/
theorem export_loop_counts {α ι ω : Type}
    (parse_fun : Root → α → Option ι → Except Unit (ι × Nat))
    (write_fun : Nat → ι → ω) (step_size : Nat) :
    ∀ (entries : List (Root × α)) (st st' : LoopSt ι ω),
      export_loop parse_fun write_fun step_size entries st = Except.ok st' →
      st'.count = st.count + entries.length ∧ st'.db_count = st.db_count + entries.length := by
  intro entries
  induction entries with
  | nil =>
    intro st st' h
    simp only [export_loop, Except.ok.injEq] at h
    subst h
    simp
  | cons e rest ih =>
    intro st st' h
    obtain ⟨k, v⟩ := e
    cases hp : parse_fun k v st.items with
    | error u => simp only [export_loop, hp] at h; exact absurd h (by simp)
    | ok p =>
      obtain ⟨it, sl⟩ := p
      simp only [export_loop, hp] at h
      split at h
      · have h12 : st'.count = (st.count + 1) + rest.length
            ∧ st'.db_count = (st.db_count + 1) + rest.length := ih _ _ h
        refine ⟨?_, ?_⟩ <;> simp only [List.length_cons] <;> omega
      · have h12 : st'.count = (st.count + 1) + rest.length
            ∧ st'.db_count = (st.db_count + 1) + rest.length := ih _ _ h
        refine ⟨?_, ?_⟩ <;> simp only [List.length_cons] <;> omega

/-- The loop only appends to the list of performed writes. -/
theorem export_loop_writes_prefix {α ι ω : Type}
    (parse_fun : Root → α → Option ι → Except Unit (ι × Nat))
    (write_fun : Nat → ι → ω) (step_size : Nat) :
    ∀ (entries : List (Root × α)) (st : LoopSt ι ω),
      ∃ t, loopWrites (export_loop parse_fun write_fun step_size entries st) = st.writes ++ t := by
  intro entries
  induction entries with
  | nil => exact fun st => ⟨[], by simp [export_loop, loopWrites]⟩
  | cons e rest ih =>
    intro st
    obtain ⟨k, v⟩ := e
    cases hp : parse_fun k v st.items with
    | error u => exact ⟨[], by simp only [export_loop, hp]; simp [loopWrites]⟩
    | ok p =>
      obtain ⟨it, sl⟩ := p
      simp only [export_loop, hp]
      split
      · obtain ⟨t, ht⟩ := ih ⟨none, st.count + 1, st.db_count + 1,
          if sl > st.highest_slot then sl else st.highest_slot,
          st.writes ++ [write_fun (st.count + 1) it]⟩
        exact ⟨[write_fun (st.count + 1) it] ++ t, by simpa using ht⟩
      · obtain ⟨t, ht⟩ := ih ⟨some it, st.count + 1, st.db_count + 1,
          if sl > st.highest_slot then sl else st.highest_slot, st.writes⟩
        exact ⟨t, by simpa using ht⟩

/-- On both exit paths the session trace is the store open, the write
calls in order, and the store close, in that shape. -/
theorem export_data_trace_shape {α ι ω : Type}
    (parse_fun : Root → α → Option ι → Except Unit (ι × Nat))
    (write_fun : String → Nat → Nat → ι → ω) (any_nonempty : ι → Bool)
    (out_dir : String) (entries : List (Root × α))
    (start_slot : Nat) (end_slot : Option Nat) (step_size : Nat) :
    (export_data parse_fun write_fun any_nonempty out_dir entries
        start_slot end_slot step_size).trace
      = TraceEv.openDb ::
          ((export_data parse_fun write_fun any_nonempty out_dir entries
              start_slot end_slot step_size).writes.map TraceEv.writeEv)
          ++ [TraceEv.closeDb] := by
  unfold export_data
  cases hl : export_loop parse_fun
      (fun count items => write_fun out_dir count step_size items) step_size entries
      { items := none, count := 0, db_count := 0, highest_slot := 1, writes := [] } with
  | error st => rfl
  | ok st => rfl

/-- No write event is a close event. -/
theorem countP_isClose_map_writeEv {ω : Type} (ws : List ω) :
    (ws.map TraceEv.writeEv).countP TraceEv.isClose = 0 := by
  induction ws with
  | nil => rfl
  | cons w t ih => simp [List.countP_cons, TraceEv.isClose, ih]

/-- The last element of `x :: l ++ [c]` is `c`. -/
theorem getLast_cons_append_singleton {γ : Type} (x c : γ) (l : List γ) :
    (x :: l ++ [c]).getLast? = some c := by
  rw [show x :: l ++ [c] = (x :: l) ++ [c] from rfl, List.getLast?_concat]

/-! ## Claims -/

/-- C7: the store handle acquired at pipeline start is released exactly
once on every exit path of the pipeline — whether the iteration loop
completes normally or an uncaught parse exception propagates out of it,
the session trace of `export_data` contains exactly one `db.close()`
event, and it is the last event. -/
theorem C7_store_closed_exactly_once {α ι ω : Type}
    (parse_fun : Root → α → Option ι → Except Unit (ι × Nat))
    (write_fun : String → Nat → Nat → ι → ω) (any_nonempty : ι → Bool)
    (out_dir : String) (entries : List (Root × α))
    (start_slot : Nat) (end_slot : Option Nat) (step_size : Nat) :
    ((export_data parse_fun write_fun any_nonempty out_dir entries
        start_slot end_slot step_size).trace.countP TraceEv.isClose = 1)
    ∧ ((export_data parse_fun write_fun any_nonempty out_dir entries
        start_slot end_slot step_size).trace.getLast? = some TraceEv.closeDb) := by
  rw [export_data_trace_shape]
  constructor
  · rw [List.countP_append, List.countP_cons, countP_isClose_map_writeEv]
    rfl
  · exact getLast_cons_append_singleton _ _ _

/-- C7 witness: the theorem applied to a concrete empty state run. -/
theorem C7_store_closed_exactly_once_witness :
    (export_state_data decodeS "t" [] 0 none 1).trace.countP TraceEv.isClose = 1
    ∧ (export_state_data decodeS "t" [] 0 none 1).trace.getLast? = some TraceEv.closeDb := by
  exact C7_store_closed_exactly_once
    (fun k v i => Except.ok (parse_state_data decodeS k v i 0 none))
    write_state_data StateItems.any_nonempty "t" [] 0 none 1

/-- C8: the derived bit-string has the same length as the bit vector,
its character at every position `i` is `'1'` when bit `i` is set and
`'0'` otherwise (original order preserved), and `[1,0,1,1]` derives
`"1011"`. -/
theorem C8_bitstring_derivation :
    (∀ l : List Bool, (bitlist_to_str l).length = l.length)
    ∧ (∀ (l : List Bool) (i : Nat), i < l.length →
        (bitlist_to_str l).data.getD i ' ' = if l.getD i false then '1' else '0')
    ∧ bitlist_to_str [true, false, true, true] = "1011" := by
  refine ⟨fun l => ?_, fun l i h => ?_, by rfl⟩
  · show (bitlist_to_str l).data.length = l.length
    rw [bitlist_to_str_data, List.length_map]
  · rw [bitlist_to_str_data, List.getD_eq_getElem?_getD, List.getElem?_map,
        List.getD_eq_getElem?_getD, List.getElem?_eq_getElem h]
    simp

/-- C8 witness: the theorem applied to the vector `[1,0,1,1]` at
position 1, whose bit is clear, gives the character `'0'`. -/
theorem C8_bitstring_derivation_witness :
    (bitlist_to_str [true, false, true, true]).length = 4
    ∧ (bitlist_to_str [true, false, true, true]).data.getD 1 ' ' = '0' := by
  have h := C8_bitstring_derivation
  exact ⟨h.1 [true, false, true, true],
    by have h2 := h.2.1 [true, false, true, true] 1 (by decide); simpa using h2⟩

/-- C5 (code bug): `export_data` accepts `start_slot`/`end_slot` but its
loop calls `parse_fun(key, value, items)` without them, so a configured
range is never enforced in a run: with `start_slot = 5`, `end_slot = 10`,
a block at slot 3 is still extracted and written, although the very same
parser, given those bounds directly, would have filtered it out. -/
theorem C5_range_not_enforced :
    ((export_block_data decodeB "o" [("a", some (mkBlock 3))] 5 (some 10) 1).writes.map
        (fun w => w.blockFile.rows)) = [[extract_block (mkBlock 3) "a"]]
    ∧ (extract_block (mkBlock 3) "a").slot = 3
    ∧ ¬ (5 ≤ (extract_block (mkBlock 3) "a").slot)
    ∧ parse_block_data decodeB "a" (some (mkBlock 3)) none 5 (some 10)
        = Except.ok (emptyBlockItems, 3) := by
  exact ⟨rfl, rfl, by decide, rfl⟩

/-- C4 counterexample: the first batch written is not named with batch
index 0.  A run of one item with `step_size = 1` flushes at
`count = 1` and the artifact name uses `count // step_size = 1`: the only
block artifact is `blocks_1.csv`, not `blocks_0.csv`. -/
theorem C4_first_batch_index_is_one :
    ((export_block_data decodeB "od" [("x", some (mkBlock 7))] 0 none 1).writes.map
        (fun w => w.blockFile.name)) = ["od/blocks_1.csv"]
    ∧ "od/blocks_1.csv" ≠ "od/blocks_0.csv" := by
  exact ⟨rfl, by decide⟩

/-- C4 as amended: artifacts are named `<kind>_<batch_index>.csv` where
`batch_index = count / step_size` at the moment of the flush (so the
first periodic flush produces index 1; index 0 occurs only for a final
flush with fewer than `step_size` processed items), and each artifact
consists of the kind's fixed header row followed by the buffered data
rows in original encounter order. -/
theorem C4_artifact_naming (out_dir : String) (count step_size : Nat) (items : BlockItems) :
    ((write_block_data out_dir count step_size items).blockFile.name
        = out_dir ++ "/blocks_" ++ toString (count / step_size) ++ ".csv")
    ∧ ((write_block_data out_dir count step_size items).attFile.name
        = out_dir ++ "/attestations_" ++ toString (count / step_size) ++ ".csv")
    ∧ ((write_block_data out_dir count step_size items).depositFile.name
        = out_dir ++ "/deposits_" ++ toString (count / step_size) ++ ".csv")
    ∧ ((write_block_data out_dir count step_size items).exitFile.name
        = out_dir ++ "/exits_" ++ toString (count / step_size) ++ ".csv")
    ∧ ((write_block_data out_dir count step_size items).blockFile.lines BlockRecord.toRow
        = BLOCK_COLS :: items.blocks.map BlockRecord.toRow)
    ∧ ((write_block_data out_dir count step_size items).attFile.lines AttestationRecord.toRow
        = ATTESTATION_COLS :: items.attestations.map AttestationRecord.toRow)
    ∧ ((write_block_data out_dir count step_size items).depositFile.lines DepositRecord.toRow
        = DEPOSIT_COLS :: items.deposits.map DepositRecord.toRow)
    ∧ ((write_block_data out_dir count step_size items).exitFile.lines ExitRecord.toRow
        = EXIT_COLS :: items.exits.map ExitRecord.toRow)
    ∧ ((write_state_data out_dir count step_size { states := [] }).name
        = out_dir ++ "/states_" ++ toString (count / step_size) ++ ".csv") := by
  exact ⟨rfl, rfl, rfl, rfl, rfl, rfl, rfl, rfl, rfl⟩

/-- C4 witness: the naming theorem applied at `count = 3`,
`step_size = 2` on an empty buffer gives `blocks_1.csv`. -/
theorem C4_artifact_naming_witness :
    (write_block_data "w" 3 2 emptyBlockItems).blockFile.name = "w/blocks_1.csv" := by
  have h := C4_artifact_naming "w" 3 2 emptyBlockItems
  rw [h.1]
  rfl

/-- C3 counterexample: an item whose slot (2) lies outside the configured
range `[5, 9)` still advances the flush counter — after one such item the
running count is 1 and, with `step_size = 1`, a flush has even fired.
The claim predicts count 0 and no flush. -/
theorem C3_out_of_range_advances_counter :
    (export_block_data decodeB "oc" [("b", some (mkBlock 2))] 5 (some 9) 1).count = 1
    ∧ (export_block_data decodeB "oc" [("b", some (mkBlock 2))] 5 (some 9) 1).writes.length = 1
    ∧ ¬ (5 ≤ (mkBlock 2).message.slot) := by
  exact ⟨rfl, rfl, by decide⟩

/-- C3 as amended: the running count that triggers flushes and determines
batch indices advances once per store item pulled from the cursor,
regardless of the slot filter or of whether any records were extracted:
for every run that completes without aborting it equals the seen count
`db_count`, and both equal the total number of store items. -/
theorem C3_count_equals_seen {α ι ω : Type}
    (parse_fun : Root → α → Option ι → Except Unit (ι × Nat))
    (write_fun : String → Nat → Nat → ι → ω) (any_nonempty : ι → Bool)
    (out_dir : String) (entries : List (Root × α))
    (start_slot : Nat) (end_slot : Option Nat) (step_size : Nat)
    (h : (export_data parse_fun write_fun any_nonempty out_dir entries
        start_slot end_slot step_size).aborted = false) :
    (export_data parse_fun write_fun any_nonempty out_dir entries
        start_slot end_slot step_size).count = entries.length
    ∧ (export_data parse_fun write_fun any_nonempty out_dir entries
        start_slot end_slot step_size).db_count = entries.length := by
  unfold export_data at h ⊢
  cases hl : export_loop parse_fun
      (fun count items => write_fun out_dir count step_size items) step_size entries
      { items := none, count := 0, db_count := 0, highest_slot := 1, writes := [] } with
  | error st => rw [hl] at h; exact absurd h (by simp)
  | ok st =>
    have hc : st.count = 0 + entries.length ∧ st.db_count = 0 + entries.length :=
      export_loop_counts _ _ _ entries _ _ hl
    simp only [hl]
    constructor
    · show st.count = entries.length
      omega
    · show st.db_count = entries.length
      omega

/-- C3 witness: a one-item state run (whose single item fails to decode
and is skipped) completes with `count = db_count = 1`. -/
theorem C3_count_equals_seen_witness :
    (export_state_data decodeS "o" [("k", none)] 0 none 2).count = 1
    ∧ (export_state_data decodeS "o" [("k", none)] 0 none 2).db_count = 1 := by
  exact C3_count_equals_seen
    (fun k v i => Except.ok (parse_state_data decodeS k v i 0 none))
    write_state_data StateItems.any_nonempty "o" [("k", none)] 0 none 2 rfl

/-- C1 (code bug): batch reassembly drops records.  With 3 block items
and `step_size = 2`, the periodic flush at `count = 2` writes items 1–2
to `blocks_1.csv` (index `2 / 2 = 1`), and the final flush at `count = 3`
reuses index `3 / 2 = 1` and truncates the same file, leaving only item
3.  The unbatched run (`step_size` effectively infinite) yields all three
records, so concatenating surviving artifacts in batch-index order loses
items 1–2. -/
theorem C1_final_flush_overwrites_last_batch :
    ((export_block_data decodeB "o" entries3 0 none 2).writes.map
        (fun w => w.blockFile.name)) = ["o/blocks_1.csv", "o/blocks_1.csv"]
    ∧ ((export_block_data decodeB "o" entries3 0 none 2).writes.map
        (fun w => w.blockFile.rows))
      = [[extract_block (mkBlock 1) "a", extract_block (mkBlock 2) "b"],
         [extract_block (mkBlock 3) "c"]]
    ∧ lastContent "o/blocks_1.csv" (blockRunFiles (export_block_data decodeB "o" entries3 0 none 2))
        = some [BLOCK_COLS, (extract_block (mkBlock 3) "c").toRow]
    ∧ ((export_block_data decodeB "o" entries3 0 none 1000).writes.map
        (fun w => w.blockFile.rows))
      = [[extract_block (mkBlock 1) "a", extract_block (mkBlock 2) "b",
          extract_block (mkBlock 3) "c"]] := by
  exact ⟨rfl, rfl, rfl, rfl⟩

/-- C6: a decode failure on a block-namespace value is fatal — the parser
raises and, at run level, the pipeline aborts with no further writes —
while a decode failure on a state-namespace value is recovered locally:
the parser returns the buffer unchanged together with slot 0 for the
progress tracker, and a state-pipeline run never aborts. -/
theorem C6_decode_failure_policy :
    (∀ (α : Type) (decode_block : α → Option SignedBeaconBlock) (k : Root) (v : α)
        (items : Option BlockItems) (start_slot : Nat) (end_slot : Option Nat),
      decode_block v = none →
      parse_block_data decode_block k v items start_slot end_slot = Except.error ())
    ∧ (∀ (α : Type) (decode_block : α → Option SignedBeaconBlock) (out_dir : String)
        (k : Root) (v : α) (rest : List (Root × α)) (start_slot : Nat)
        (end_slot : Option Nat) (step_size : Nat),
      decode_block v = none →
        (export_block_data decode_block out_dir ((k, v) :: rest)
            start_slot end_slot step_size).aborted = true
        ∧ (export_block_data decode_block out_dir ((k, v) :: rest)
            start_slot end_slot step_size).writes = [])
    ∧ (∀ (σ : Type) (decode_state : σ → Option BeaconState) (k : Root) (v : σ)
        (items : Option StateItems) (start_slot : Nat) (end_slot : Option Nat),
      decode_state v = none →
      parse_state_data decode_state k v items start_slot end_slot
        = (items.getD emptyStateItems, 0))
    ∧ (∀ (σ : Type) (decode_state : σ → Option BeaconState) (out_dir : String)
        (entries : List (Root × σ)) (start_slot : Nat) (end_slot : Option Nat)
        (step_size : Nat),
      (export_state_data decode_state out_dir entries
          start_slot end_slot step_size).aborted = false) := by
  refine ⟨?_, ?_, ?_, ?_⟩
  · intro α decode_block k v items start_slot end_slot h
    simp [parse_block_data, h]
  · intro α decode_block out_dir k v rest start_slot end_slot step_size h
    constructor <;>
      simp [export_block_data, export_data, export_loop, parse_block_data, h]
  · intro σ decode_state k v items start_slot end_slot h
    simp [parse_state_data, h]
  · intro σ decode_state out_dir entries start_slot end_slot step_size
    obtain ⟨st', hst⟩ := export_loop_ok_of_total
      (fun k v i => Except.ok (parse_state_data decode_state k v i 0 none))
      (fun count items => write_state_data out_dir count step_size items) step_size
      (fun k v i => ⟨parse_state_data decode_state k v i 0 none, rfl⟩) entries
      { items := none, count := 0, db_count := 0, highest_slot := 1, writes := [] }
    simp only [export_state_data, export_data, hst]

/-- C6 witness: a block value that fails to decode makes the parser raise
and a run starting with it abort with nothing written; a state value that
fails to decode is skipped with slot 0 and its run completes. -/
theorem C6_decode_failure_policy_witness :
    parse_block_data decodeB "k" none none 0 none = Except.error ()
    ∧ (export_block_data decodeB "o" [("k", none)] 0 none 1).aborted = true
    ∧ (export_block_data decodeB "o" [("k", none)] 0 none 1).writes = []
    ∧ parse_state_data decodeS "k" none none 0 none = (emptyStateItems, 0)
    ∧ (export_state_data decodeS "o" [("k", none)] 0 none 1).aborted = false := by
  have h := C6_decode_failure_policy
  exact ⟨h.1 _ decodeB "k" none none 0 none rfl,
    (h.2.1 _ decodeB "o" "k" none [] 0 none 1 rfl).1,
    (h.2.1 _ decodeB "o" "k" none [] 0 none 1 rfl).2,
    h.2.2.1 _ decodeS "k" none none 0 none rfl,
    h.2.2.2 _ decodeS "o" [("k", none)] 0 none 1⟩

/-- Extraction of attestations from a block whose body holds none yields
the empty list. -/
theorem extract_attestations_nil (sbb : SignedBeaconBlock)
    (h : sbb.message.body.attestations = []) : extract_attestations sbb = [] := by
  simp [extract_attestations, h]

/-- Extraction of deposits from a block whose body holds none yields the
empty list. -/
theorem extract_deposits_nil (sbb : SignedBeaconBlock)
    (h : sbb.message.body.deposits = []) : extract_deposits sbb = [] := by
  simp [extract_deposits, h]

/-- Extraction of voluntary exits from a block whose body holds none
yields the empty list. -/
theorem extract_exits_nil (sbb : SignedBeaconBlock)
    (h : sbb.message.body.voluntary_exits = []) : extract_exits sbb = [] := by
  simp [extract_exits, h]

/-- C9: a block whose body holds zero attestations, deposits or voluntary
exits extracts to zero records of that kind — an empty list, not an
error — each kind independently of the others; and an in-range block
with all three lists empty still parses successfully into exactly one
block record and nothing else. -/
theorem C9_empty_body_lists :
    (∀ sbb : SignedBeaconBlock, sbb.message.body.attestations = [] →
      extract_attestations sbb = [])
    ∧ (∀ sbb : SignedBeaconBlock, sbb.message.body.deposits = [] →
      extract_deposits sbb = [])
    ∧ (∀ sbb : SignedBeaconBlock, sbb.message.body.voluntary_exits = [] →
      extract_exits sbb = [])
    ∧ (∀ (α : Type) (decode_block : α → Option SignedBeaconBlock) (k : Root) (v : α)
        (sbb : SignedBeaconBlock),
      decode_block v = some sbb →
      sbb.message.body.attestations = [] →
      sbb.message.body.deposits = [] →
      sbb.message.body.voluntary_exits = [] →
      parse_block_data decode_block k v none 0 none
        = Except.ok ({ emptyBlockItems with blocks := [extract_block sbb k] },
            sbb.message.slot)) := by
  refine ⟨extract_attestations_nil, extract_deposits_nil, extract_exits_nil, ?_⟩
  intro α decode_block k v sbb hdec h1 h2 h3
  simp [parse_block_data, hdec, past_end_slot, emptyBlockItems,
    extract_attestations_nil sbb h1, extract_deposits_nil sbb h2, extract_exits_nil sbb h3]

/-- C9 witness: the theorem applied to a concrete block with an empty
body. -/
theorem C9_empty_body_lists_witness :
    extract_attestations (mkBlock 5) = []
    ∧ extract_deposits (mkBlock 5) = []
    ∧ extract_exits (mkBlock 5) = []
    ∧ parse_block_data decodeB "k" (some (mkBlock 5)) none 0 none
        = Except.ok ({ emptyBlockItems with blocks := [extract_block (mkBlock 5) "k"] }, 5) := by
  have h := C9_empty_body_lists
  exact ⟨h.1 (mkBlock 5) rfl, h.2.1 (mkBlock 5) rfl, h.2.2.1 (mkBlock 5) rfl,
    h.2.2.2 _ decodeB "k" (some (mkBlock 5)) (mkBlock 5) rfl rfl rfl rfl⟩

/-- Parsing the uniform in-range entry appends one block record to the
buffer (which the parser initializes when it is `none`) and reports
slot 0. -/
theorem uParse_step (it : Option BlockItems) (b : Nat)
    (hb : it = none ∧ b = 0 ∨ it = some (bufOf b)) :
    parse_block_data decodeB "k" (some (mkBlock 0)) it 0 none
      = Except.ok (bufOf (b + 1), 0) := by
  rcases hb with ⟨h1, h2⟩ | h1
  · subst h1; subst h2; rfl
  · subst h1
    simp only [parse_block_data, decodeB, past_end_slot, bufOf, blockRec,
      extract_attestations, extract_deposits, extract_exits, mkBlock, emptyBody]
    simp [List.replicate_succ']

/-- One loop step on the uniform entry: the buffer grows by one record,
both counters advance, and the batch is flushed exactly when the new
count is a multiple of the step size (1000 here). -/
theorem uLoop_cons (it : Option BlockItems) (b c d : Nat) (ws : List BlockWrite)
    (tail : List (Root × Option SignedBeaconBlock))
    (hb : it = none ∧ b = 0 ∨ it = some (bufOf b)) :
    export_loop (fun k v i => parse_block_data decodeB k v i 0 none)
        (fun count items => write_block_data "o" count 1000 items) 1000
        (uEntry :: tail) ⟨it, c, d, 1, ws⟩
      = if (c + 1) % 1000 = 0 then
          export_loop (fun k v i => parse_block_data decodeB k v i 0 none)
            (fun count items => write_block_data "o" count 1000 items) 1000
            tail ⟨none, c + 1, d + 1, 1, ws ++ [write_block_data "o" (c + 1) 1000 (bufOf (b + 1))]⟩
        else
          export_loop (fun k v i => parse_block_data decodeB k v i 0 none)
            (fun count items => write_block_data "o" count 1000 items) 1000
            tail ⟨some (bufOf (b + 1)), c + 1, d + 1, 1, ws⟩ := by
  simp only [uEntry, export_loop]
  rw [uParse_step it b hb]
  rfl

/-- A full window of 1000 uniform entries starting at a count one past a
flush boundary: no flush fires before the last item, and the last item
flushes the accumulated batch with batch count `c + n`. -/
theorem uWindow : ∀ (n c d b : Nat) (ws : List BlockWrite)
    (tail : List (Root × Option SignedBeaconBlock)) (it : Option BlockItems),
    0 < n → n ≤ 1000 → (c + n) % 1000 = 0 →
    (it = none ∧ b = 0 ∨ it = some (bufOf b)) →
    export_loop (fun k v i => parse_block_data decodeB k v i 0 none)
        (fun count items => write_block_data "o" count 1000 items) 1000
        (List.replicate n uEntry ++ tail) ⟨it, c, d, 1, ws⟩
      = export_loop (fun k v i => parse_block_data decodeB k v i 0 none)
          (fun count items => write_block_data "o" count 1000 items) 1000
          tail ⟨none, c + n, d + n, 1,
            ws ++ [write_block_data "o" (c + n) 1000 (bufOf (b + n))]⟩ := by
  intro n
  induction n with
  | zero => intro c d b ws tail it h0 h1 h2 hb; omega
  | succ n ih =>
    intro c d b ws tail it h0 h1 h2 hb
    rw [List.replicate_succ, List.cons_append, uLoop_cons it b c d ws _ hb]
    by_cases hc : (c + 1) % 1000 = 0
    · have hn : n = 0 := by omega
      subst hn
      rw [if_pos hc]
      rfl
    · rw [if_neg hc]
      have hrec := ih (c + 1) (d + 1) (b + 1) ws tail (some (bufOf (b + 1)))
        (by omega) (by omega) (by omega) (Or.inr rfl)
      rw [hrec]
      have e1 : c + 1 + n = c + (n + 1) := by omega
      have e2 : d + 1 + n = d + (n + 1) := by omega
      have e3 : b + 1 + n = b + (n + 1) := by omega
      rw [e1, e2, e3]

/-- A partial tail of uniform entries that never reaches the next flush
boundary: the loop ends normally with the batch still buffered and no
write performed. -/
theorem uPartial : ∀ (n c d b : Nat) (ws : List BlockWrite) (it : Option BlockItems),
    (∀ i, 0 < i → i ≤ n → (c + i) % 1000 ≠ 0) →
    (it = none ∧ b = 0 ∨ it = some (bufOf b)) →
    export_loop (fun k v i => parse_block_data decodeB k v i 0 none)
        (fun count items => write_block_data "o" count 1000 items) 1000
        (List.replicate n uEntry) ⟨it, c, d, 1, ws⟩
      = Except.ok ⟨if n = 0 then it else some (bufOf (b + n)), c + n, d + n, 1, ws⟩ := by
  intro n
  induction n with
  | zero => intro c d b ws it hno hb; simp [export_loop]
  | succ n ih =>
    intro c d b ws it hno hb
    rw [List.replicate_succ, uLoop_cons it b c d ws _ hb,
      if_neg (hno 1 (by omega) (by omega))]
    have hrec := ih (c + 1) (d + 1) (b + 1) ws (some (bufOf (b + 1)))
      (fun i hi hi' => by
        have hh := hno (i + 1) (by omega) (by omega)
        intro hcon
        exact hh (by rw [show c + (i + 1) = c + 1 + i from by omega]; exact hcon))
      (Or.inr rfl)
    rw [hrec]
    by_cases hn : n = 0
    · subst hn
      simp
    · rw [if_neg hn, if_neg (Nat.succ_ne_zero n)]
      have e1 : c + 1 + n = c + (n + 1) := by omega
      have e2 : d + 1 + n = d + (n + 1) := by omega
      have e3 : b + 1 + n = b + (n + 1) := by omega
      rw [e1, e2, e3]

/-- C2: a run over 2500 in-range items with `step_size = 1000` performs
exactly 3 batch writes — the two periodic flushes at counts 1000 and 2000
and the final flush at 2500 — whose block files hold 1000, 1000 and 500
data rows respectively, each file carrying the fixed header row. -/
theorem C2_batch_sizing_2500 :
    (export_block_data decodeB "o" (List.replicate 2500 uEntry) 0 none 1000).writes
      = [write_block_data "o" 1000 1000 (bufOf 1000),
         write_block_data "o" 2000 1000 (bufOf 1000),
         write_block_data "o" 2500 1000 (bufOf 500)]
    ∧ ((export_block_data decodeB "o" (List.replicate 2500 uEntry) 0 none 1000).writes.map
        (fun w => w.blockFile.rows.length)) = [1000, 1000, 500]
    ∧ (export_block_data decodeB "o" (List.replicate 2500 uEntry) 0 none 1000).writes.length = 3
    ∧ ((export_block_data decodeB "o" (List.replicate 2500 uEntry) 0 none 1000).writes.map
        (fun w => w.blockFile.header)) = [BLOCK_COLS, BLOCK_COLS, BLOCK_COLS] := by
  have h25 : List.replicate 2500 uEntry
      = List.replicate 1000 uEntry
        ++ (List.replicate 1000 uEntry ++ List.replicate 500 uEntry) := by
    rw [← List.replicate_add, ← List.replicate_add]
  have hwr : (export_block_data decodeB "o" (List.replicate 2500 uEntry) 0 none 1000).writes
      = [write_block_data "o" 1000 1000 (bufOf 1000),
         write_block_data "o" 2000 1000 (bufOf 1000),
         write_block_data "o" 2500 1000 (bufOf 500)] := by
    unfold export_block_data export_data
    rw [h25]
    rw [uWindow 1000 0 0 0 [] _ none (by omega) (by omega) (by omega) (Or.inl ⟨rfl, rfl⟩)]
    rw [show (0:Nat) + 1000 = 1000 from rfl]
    rw [uWindow 1000 1000 1000 0 _ _ none (by omega) (by omega) (by omega) (Or.inl ⟨rfl, rfl⟩)]
    rw [show (1000:Nat) + 1000 = 2000 from by norm_num]
    rw [uPartial 500 2000 2000 0 _ none (fun i hi hi' => by omega) (Or.inl ⟨rfl, rfl⟩)]
    rw [show (2000:Nat) + 500 = 2500 from by norm_num]
    rfl
  refine ⟨hwr, ?_, ?_, ?_⟩
  · simp only [hwr, List.map_cons, List.map_nil, write_block_data, bufOf,
      List.length_replicate]
  · rw [hwr]
    rfl
  · rw [hwr]
    rfl

/-- The writes of a full run extend the writes of its main loop (the only
possible addition being the single final flush). -/
theorem export_data_writes_extends {α ι ω : Type}
    (parse_fun : Root → α → Option ι → Except Unit (ι × Nat))
    (write_fun : String → Nat → Nat → ι → ω) (any_nonempty : ι → Bool)
    (out_dir : String) (entries : List (Root × α))
    (start_slot : Nat) (end_slot : Option Nat) (step_size : Nat) :
    ∃ t, (export_data parse_fun write_fun any_nonempty out_dir entries
        start_slot end_slot step_size).writes
      = loopWrites (export_loop parse_fun
          (fun count items => write_fun out_dir count step_size items) step_size entries
          { items := none, count := 0, db_count := 0, highest_slot := 1, writes := [] }) ++ t := by
  unfold export_data
  cases hl : export_loop parse_fun
      (fun count items => write_fun out_dir count step_size items) step_size entries
      { items := none, count := 0, db_count := 0, highest_slot := 1, writes := [] } with
  | error st => exact ⟨[], by simp [loopWrites]⟩
  | ok st =>
    cases hit : st.items with
    | none => exact ⟨[], by simp [loopWrites, hit]⟩
    | some items =>
      by_cases hne : any_nonempty items = true
      · exact ⟨[write_fun out_dir st.count step_size items], by simp [loopWrites, hit, hne]⟩
      · exact ⟨[], by simp [loopWrites, hit, hne]⟩

/-- C10: a full window of `step_size` consecutive store items that
contribute no records (here: state values on which decoding fails, which
are skipped) still fires the periodic flush, producing an artifact that
holds only the header row — and this can happen mid-run, with later
batches carrying data, not only for an empty namespace.  The batch writer
behaves the same for every record kind: on an empty buffer each kind's
artifact is exactly its fixed header row. -/
theorem C10_header_only_flush :
    (∀ rest : List (Root × Option BeaconState),
      (export_state_data decodeS "o" (("a", none) :: ("b", none) :: rest) 0 none 2).writes.head?
        = some (write_state_data "o" 2 2 emptyStateItems))
    ∧ (write_state_data "o" 2 2 emptyStateItems).name = "o/states_1.csv"
    ∧ (write_state_data "o" 2 2 emptyStateItems).lines StateRecord.toRow = [STATE_COLS]
    ∧ ((export_state_data decodeS "o"
          [("a", none), ("b", none), ("c", some (mkState 5)), ("d", some (mkState 6))]
          0 none 2).writes.map (fun f => f.rows))
        = [[], [extract_state (mkState 5) "c", extract_state (mkState 6) "d"]]
    ∧ (write_block_data "o" 2 2 emptyBlockItems).blockFile.lines BlockRecord.toRow
        = [BLOCK_COLS]
    ∧ (write_block_data "o" 2 2 emptyBlockItems).attFile.lines AttestationRecord.toRow
        = [ATTESTATION_COLS]
    ∧ (write_block_data "o" 2 2 emptyBlockItems).depositFile.lines DepositRecord.toRow
        = [DEPOSIT_COLS]
    ∧ (write_block_data "o" 2 2 emptyBlockItems).exitFile.lines ExitRecord.toRow
        = [EXIT_COLS] := by
  refine ⟨?_, rfl, rfl, rfl, rfl, rfl, rfl, rfl⟩
  intro rest
  obtain ⟨t2, ht2⟩ := export_data_writes_extends
    (fun k v i => Except.ok (parse_state_data decodeS k v i 0 none))
    write_state_data StateItems.any_nonempty "o" (("a", none) :: ("b", none) :: rest)
    0 none 2
  have hstep : export_loop
      (fun k v i => Except.ok (parse_state_data decodeS k v i 0 none))
      (fun count items => write_state_data "o" count 2 items) 2
      (("a", none) :: ("b", none) :: rest)
      { items := none, count := 0, db_count := 0, highest_slot := 1, writes := [] }
    = export_loop
        (fun k v i => Except.ok (parse_state_data decodeS k v i 0 none))
        (fun count items => write_state_data "o" count 2 items) 2 rest
        { items := none, count := 2, db_count := 2, highest_slot := 1,
          writes := [write_state_data "o" 2 2 emptyStateItems] } := rfl
  obtain ⟨t, ht⟩ := export_loop_writes_prefix
    (fun k v i => Except.ok (parse_state_data decodeS k v i 0 none))
    (fun count items => write_state_data "o" count 2 items) 2 rest
    { items := none, count := 2, db_count := 2, highest_slot := 1,
      writes := [write_state_data "o" 2 2 emptyStateItems] }
  show (export_data (fun k v i => Except.ok (parse_state_data decodeS k v i 0 none))
      write_state_data StateItems.any_nonempty "o" (("a", none) :: ("b", none) :: rest)
      0 none 2).writes.head? = some (write_state_data "o" 2 2 emptyStateItems)
  rw [ht2, hstep, ht]
  rfl

/-- C10 witness: the header-only first batch in the two-bad-items run
with no further entries. -/
theorem C10_header_only_flush_witness :
    (export_state_data decodeS "o" (("a", none) :: ("b", none) :: []) 0 none 2).writes.head?
      = some (write_state_data "o" 2 2 emptyStateItems) :=
  C10_header_only_flush.1 []

end BlockExport
